import Mathlib

/-!
# Verification of the AnimalFarm foraging simulation core

Shallow embedding of the simulation core of the repository
(`models/cell.py`, `models/world.py`, `models/agent.py`,
`simulation/time_system.py`, `simulation/game.py`) together with
theorems settling the specification claims.

Modelling conventions:

* Python integers are `Int` (counters that the code can only keep
  non-negative are `Nat` where that is evident from the source).
* `random.randint(a, b)` is modelled by an explicit draw parameter
  `d : Nat` interpreted as `a + d % (b - a + 1)`, which ranges exactly
  over `[a, b]`.  `random.random() < p` comparisons (cluster spreading,
  movement heuristics) involve floating point; since the compared
  probabilities lie strictly between 0 and 1, both outcomes are
  possible and the comparison result is modelled as an oracle Boolean.
* The movement heuristic `Agent.calculate_movement` (floats plus
  `random.choice`) always ends by setting `last_dx/last_dy` to a
  single-step delta and returning `(x+dx, y+dy)`; it is modelled by the
  chosen delta being supplied as an oracle value.
* Configuration constants from `config.py` are gathered in a `Config`
  structure; `defaultConfig` holds the concrete values of `config.py`.
* `World.consume_resources` returns the pair `(value, resource_type)`.
  `Agent._perform_move` and `Agent._move_towards_home` execute
  `self.collected_calories += calories_gained` with that pair, which
  raises `TypeError` in Python (`int += tuple`).  Operations that can
  reach that statement therefore return a `StepResult` that is either
  `raised` (the Python exception, with the object state mutated up to
  the raising statement, as exceptions leave it) or `returned b`.
-/

/-- Resource types appearing in `config.RESOURCE_TYPES`; `other`
stands for any string not in the `RESOURCE_VALUE` dictionary. -/
inductive RType where
  | food
  | water
  | other
deriving DecidableEq, Repr

/-- Cell state constants `STATE_FULL = 0`, `STATE_CONSUMED = 1`,
`STATE_REGROWING = 2` of `models/cell.py`. -/
inductive CellState where
  | full
  | consumed
  | regrowing
deriving DecidableEq, Repr

/-- The constants of `config.py` used by the simulation core. -/
structure Config where
  movesPerDay : Int
  initialCalories : Int
  maxCalories : Int
  initialSleep : Int
  maxSleep : Int
  sleepEnergyGain : Int
  calorieConsumptionPerDay : Int
  homeBaseX : Int
  homeBaseY : Int
  resourceValueDefault : Int
  resourceValueFood : Int
  resourceValueWater : Int
  regrowthEnabled : Bool
  minRegrowthTime : Nat
  maxRegrowthTime : Nat
  foodClusterCount : Nat
  foodClusterSizeMin : Nat
  foodClusterSizeMax : Nat
  waterClusterCount : Nat
  waterClusterSizeMin : Nat
  waterClusterSizeMax : Nat
deriving Repr

/-- The concrete values of `config.py`. -/
def defaultConfig : Config where
  movesPerDay := 20
  initialCalories := 20
  maxCalories := 50
  initialSleep := 100
  maxSleep := 100
  sleepEnergyGain := 10
  calorieConsumptionPerDay := 25
  homeBaseX := 25
  homeBaseY := 25
  resourceValueDefault := 10
  resourceValueFood := 20
  resourceValueWater := 15
  regrowthEnabled := true
  minRegrowthTime := 300
  maxRegrowthTime := 400
  foodClusterCount := 6
  foodClusterSizeMin := 10
  foodClusterSizeMax := 30
  waterClusterCount := 3
  waterClusterSizeMin := 20
  waterClusterSizeMax := 40

/-- Lookup in the `RESOURCE_VALUE` dictionary: type-specific value when
the key is present, `RESOURCE_VALUE["default"]` otherwise (also for a
cell with `resource_type = None`). -/
def Config.resourceValue (cfg : Config) : Option RType → Int
  | some RType.food => cfg.resourceValueFood
  | some RType.water => cfg.resourceValueWater
  | _ => cfg.resourceValueDefault

/-- `random.randint(lo, hi)` applied to the raw oracle draw `d`. -/
def randint (lo hi : Nat) (d : Nat) : Nat :=
  lo + d % (hi - lo + 1)

/-- A grid cell (`models/cell.py`). -/
structure Cell where
  resource_type : Option RType
  resources : Int
  state : CellState
  regrowth_time : Nat
  regrowth_counter : Nat
  cluster_id : Option Nat
deriving DecidableEq, Repr

namespace Cell

/-- `Cell.__init__` (with `_initialize_resources` and
`_initialize_regrowth`); `d` is the `random.randint` draw for the
initial regrowth time. -/
def init (cfg : Config) (has_res : Bool) (rt : Option RType) (d : Nat) : Cell where
  resource_type := rt
  resources := if has_res then cfg.resourceValue rt else 0
  state := if has_res then CellState.full else CellState.consumed
  regrowth_time := randint cfg.minRegrowthTime cfg.maxRegrowthTime d
  regrowth_counter := 0
  cluster_id := none

/-- `Cell.has_resources`. -/
def hasRes (c : Cell) : Bool :=
  c.state = CellState.full

/-- `Cell._perform_consumption`. -/
def performConsumption (cfg : Config) (c : Cell) : Int × Option RType × Cell :=
  let gained := c.resources
  let rt := c.resource_type
  let c := { c with resources := 0 }
  let c :=
    if cfg.regrowthEnabled then
      { c with state := CellState.regrowing, regrowth_counter := 0 }
    else
      { c with state := CellState.consumed }
  (gained, rt, c)

/-- `Cell.consume`. -/
def consume (cfg : Config) (c : Cell) : Int × Option RType × Cell :=
  if c.state = CellState.full then
    performConsumption cfg c
  else
    (0, none, c)

/-- `Cell._complete_regrowth`; `d` is the `random.randint` draw for the
next regrowth time. -/
def completeRegrowth (cfg : Config) (d : Nat) (c : Cell) : Cell :=
  { c with
    state := CellState.full
    resources := cfg.resourceValue c.resource_type
    regrowth_counter := 0
    regrowth_time := randint cfg.minRegrowthTime cfg.maxRegrowthTime d }

/-- `Cell._progress_regrowth`. -/
def progressRegrowth (cfg : Config) (d : Nat) (c : Cell) : Cell :=
  let c := { c with regrowth_counter := c.regrowth_counter + 1 }
  if c.regrowth_time ≤ c.regrowth_counter then
    completeRegrowth cfg d c
  else
    c

/-- `Cell.update`. -/
def update (cfg : Config) (d : Nat) (c : Cell) : Cell :=
  if ¬cfg.regrowthEnabled then
    c
  else if c.state = CellState.regrowing then
    progressRegrowth cfg d c
  else
    c

/-- `n` consecutive `Cell.update` calls, the `i`-th one using draw
`ds i`. -/
def updateIter (cfg : Config) (ds : Nat → Nat) : Nat → Cell → Cell
  | 0, c => c
  | n + 1, c => update cfg (ds n) (updateIter cfg ds n c)

end Cell

/-- Grid positions. -/
abbrev Pos := Int × Int

/-- One record of `World.clusters` (`models/world.py`,
`_generate_clusters`): `{'id', 'type', 'center', 'size', 'cells'}`. -/
structure ClusterInfo where
  id : Nat
  rtype : Option RType
  center : Pos
  size : Nat
  cells : List Pos
deriving DecidableEq, Repr

/-- The world (`models/world.py`): the cell grid is modelled as a total
function on positions (only in-bounds positions are ever read). -/
structure World where
  width : Int
  height : Int
  grid : Pos → Cell
  clusters : List ClusterInfo := []

namespace World

/-- Pointwise grid update (`self.grid[x][y] = ...`). -/
def setCell (g : Pos → Cell) (p : Pos) (c : Cell) : Pos → Cell :=
  fun q => if q = p then c else g q

/-- `World.is_valid_position`. -/
def isValidPosition (w : World) (x y : Int) : Bool :=
  0 ≤ x ∧ x < w.width ∧ 0 ≤ y ∧ y < w.height

/-- `World.get_cell` (`None` for an invalid position). -/
def getCell (w : World) (x y : Int) : Option Cell :=
  if w.isValidPosition x y then some (w.grid (x, y)) else none

/-- `World.has_resources` without the optional type argument. -/
def hasResources (w : World) (x y : Int) : Bool :=
  match w.getCell x y with
  | none => false
  | some c => c.hasRes

/-- `World.consume_resources`: returns the `(value, resource_type)`
pair and the world with the cell mutated by `Cell.consume`. -/
def consumeResources (cfg : Config) (w : World) (x y : Int) :
    (Int × Option RType) × World :=
  match w.getCell x y with
  | none => ((0, none), w)
  | some c =>
      let (v, rt, c') := c.consume cfg
      ((v, rt), { w with grid := setCell w.grid (x, y) c' })

/-- `World.update`: one regrowth step for every cell; `ds p` is the
`random.randint` draw used if the cell at `p` completes regrowth. -/
def update (cfg : Config) (ds : Pos → Nat) (w : World) : World :=
  { w with grid := fun p => Cell.update cfg (ds p) (w.grid p) }

end World

/-- Outcome of an agent operation that may raise: `raised` is the
Python `TypeError` described in the module docstring, `returned b` a
normal `return b`. -/
inductive StepResult where
  | raised
  | returned (acted : Bool)
deriving DecidableEq, Repr

/-- Did the operation end in the raised `TypeError`? -/
def StepResult.isRaised : StepResult → Bool
  | StepResult.raised => true
  | StepResult.returned _ => false

/-- The Boolean the operation returned (`false` when it raised and
there is no return value). -/
def StepResult.actedB : StepResult → Bool
  | StepResult.raised => false
  | StepResult.returned b => b

/-- Agent state constants of `models/agent.py`. -/
def STATE_ACTIVE : Nat := 0

/-- `Agent.STATE_RETURNING`. -/
def STATE_RETURNING : Nat := 1

/-- `Agent.STATE_SLEEPING`. -/
def STATE_SLEEPING : Nat := 2

/-- `Agent.STATE_DEAD`. -/
def STATE_DEAD : Nat := 3

/-- An agent (`models/agent.py`), with the fields mutated by the
simulation core (drawing-only fields are omitted). -/
structure Agent where
  x : Int
  y : Int
  last_dx : Int
  last_dy : Int
  calories : Int
  max_calories : Int
  collected_calories : Int
  sleep_energy : Int
  max_sleep_energy : Int
  alive : Bool
  is_sleeping : Bool
  state : Nat
  days_survived : Nat
  moves_today : Int
  total_distance_traveled : Int
  home_x : Int
  home_y : Int
  returning_home : Bool
  path_to_home : List Pos
deriving DecidableEq, Repr

namespace Agent

/-- `Agent.__init__`. -/
def init (cfg : Config) (x y : Int) : Agent where
  x := x
  y := y
  last_dx := 0
  last_dy := 0
  calories := cfg.initialCalories
  max_calories := cfg.maxCalories
  collected_calories := 0
  sleep_energy := cfg.initialSleep
  max_sleep_energy := cfg.maxSleep
  alive := true
  is_sleeping := false
  state := STATE_ACTIVE
  days_survived := 0
  moves_today := 0
  total_distance_traveled := 0
  home_x := cfg.homeBaseX
  home_y := cfg.homeBaseY
  returning_home := false
  path_to_home := []

/-- `Agent._die`. -/
def die (a : Agent) : Agent :=
  { a with alive := false, state := STATE_DEAD }

/-- `Agent.get_distance_to_home` (Manhattan distance). -/
def getDistanceToHome (a : Agent) : Int :=
  |a.x - a.home_x| + |a.y - a.home_y|

/-- The `for _ in range(steps)` loops of
`Agent._calculate_path_to_home`: successive positions stepping `dir`
along the x-axis. -/
def pathStepsX (x y dir : Int) : Nat → List Pos
  | 0 => []
  | n + 1 => (x + dir, y) :: pathStepsX (x + dir) y dir n

/-- Same along the y-axis. -/
def pathStepsY (x y dir : Int) : Nat → List Pos
  | 0 => []
  | n + 1 => (x, y + dir) :: pathStepsY x (y + dir) dir n

/-- `Agent._calculate_path_to_home`: all x-steps first, then all
y-steps. -/
def calculatePathToHome (a : Agent) : List Pos :=
  let dx := a.home_x - a.x
  let dy := a.home_y - a.y
  let direction_x : Int := if 0 < dx then 1 else -1
  let direction_y : Int := if 0 < dy then 1 else -1
  pathStepsX a.x a.y direction_x dx.natAbs ++
    pathStepsY a.home_x a.y direction_y dy.natAbs

/-- `Agent.consume_collected_calories`. -/
def consumeCollectedCalories (cfg : Config) (a : Agent) : Agent :=
  let calories_to_eat := min a.collected_calories cfg.calorieConsumptionPerDay
  let a := { a with calories := a.calories + calories_to_eat }
  let a :=
    if a.max_calories < a.calories then { a with calories := a.max_calories }
    else a
  let a := { a with collected_calories := a.collected_calories - calories_to_eat }
  if calories_to_eat < cfg.calorieConsumptionPerDay then
    let deficit := cfg.calorieConsumptionPerDay - calories_to_eat
    let a := { a with calories := a.calories - deficit }
    if a.calories ≤ 0 then a.die else a
  else
    a

/-- `Agent.sleep`. -/
def sleep (cfg : Config) (a : Agent) : Agent :=
  let a := { a with sleep_energy := a.sleep_energy + cfg.sleepEnergyGain }
  if a.max_sleep_energy < a.sleep_energy then
    { a with sleep_energy := a.max_sleep_energy }
  else
    a

/-- `Agent._wake_up`. -/
def wakeUp (a : Agent) : Agent :=
  { a with
    is_sleeping := false
    state := STATE_ACTIVE
    moves_today := 0
    days_survived := a.days_survived + 1 }

/-- `Agent.is_at_home`. -/
def isAtHome (a : Agent) : Bool :=
  a.x = a.home_x ∧ a.y = a.home_y

/-- `Agent.calculate_movement`: the heuristic's float/random choice is
abstracted to the chosen single-step delta `(dx, dy)` (every code path
of `_choose_resource_direction` and `_random_movement` sets
`last_dx/last_dy` to the final delta and returns
`(x + dx, y + dy)`). -/
def calculateMovement (a : Agent) (dxy : Int × Int) : Agent × Pos :=
  ({ a with last_dx := dxy.1, last_dy := dxy.2 },
   (a.x + dxy.1, a.y + dxy.2))

/-- `Agent._perform_move`: position update, resource consumption, then
`self.collected_calories += calories_gained` — which raises `TypeError`
because `calories_gained` is the `(value, type)` pair returned by
`World.consume_resources`.  The sleep-energy cost and death check that
follow in the source are unreachable. -/
def performMove (cfg : Config) (a : Agent) (w : World) (nx ny : Int) :
    Agent × World × StepResult :=
  let a := { a with x := nx, y := ny }
  let w := (w.consumeResources cfg a.x a.y).2
  (a, w, StepResult.raised)

/-- `Agent.move`; `dxy` is the heuristic's chosen delta (see
`calculateMovement`).  The distance bookkeeping and `return True` after
`_perform_move` in the source are unreachable. -/
def move (cfg : Config) (dxy : Int × Int) (a : Agent) (w : World) :
    Agent × World × StepResult :=
  let (a, np) := calculateMovement a dxy
  if w.isValidPosition np.1 np.2 then
    performMove cfg a w np.1 np.2
  else
    (a, w, StepResult.returned false)

/-- `Agent._move_towards_home`.  The consumption bookkeeping raises as
in `performMove`; the home-arrival check and `return True` that follow
it in the source are unreachable. -/
def moveTowardsHome (cfg : Config) (a : Agent) (w : World) :
    Agent × World × StepResult :=
  match a.path_to_home with
  | [] => ({ a with returning_home := false }, w, StepResult.returned false)
  | (next_x, next_y) :: rest =>
      if w.isValidPosition next_x next_y then
        let a := { a with
          last_dx := next_x - a.x
          last_dy := next_y - a.y
          x := next_x
          y := next_y
          path_to_home := rest }
        let a := { a with sleep_energy := a.sleep_energy - 1 }
        if a.sleep_energy ≤ 0 then
          (a.die, w, StepResult.returned false)
        else
          let w := (w.consumeResources cfg a.x a.y).2
          (a, w, StepResult.raised)
      else
        ({ a with path_to_home := calculatePathToHome a }, w,
         StepResult.returned false)

/-- The opening of `Agent._update_daytime` (lines deciding whether to
start returning home). -/
def dayCheckReturnHome (cfg : Config) (a : Agent) : Agent :=
  let distance_to_home := a.getDistanceToHome
  let moves_remaining := cfg.movesPerDay - a.moves_today
  if ¬a.returning_home ∧ moves_remaining ≤ distance_to_home then
    { a with
      returning_home := true
      state := STATE_RETURNING
      path_to_home := calculatePathToHome a }
  else
    a

/-- The closing `if result: self.moves_today += 1` of
`Agent._update_daytime`; it is skipped when the step raised, since the
exception propagates out of `_update_daytime`. -/
def dayMoveCounter (r : Agent × World × StepResult) :
    Agent × World × StepResult :=
  if r.2.2.isRaised then
    r
  else if r.2.2.actedB then
    ({ r.1 with moves_today := r.1.moves_today + 1 }, r.2.1, r.2.2)
  else
    r

/-- `Agent._update_daytime`. -/
def updateDaytime (cfg : Config) (dxy : Int × Int) (a : Agent) (w : World) :
    Agent × World × StepResult :=
  let a := dayCheckReturnHome cfg a
  dayMoveCounter
    (if a.returning_home then
      moveTowardsHome cfg a w
    else if a.moves_today < cfg.movesPerDay then
      move cfg dxy a w
    else
      (a, w, StepResult.returned false))

/-- `Agent._update_nighttime` (raises nothing). -/
def updateNighttime (cfg : Config) (a : Agent) : Agent × Bool :=
  let a := { a with returning_home := false, path_to_home := [] }
  if ¬a.is_sleeping then
    let a := consumeCollectedCalories cfg a
    let a := { a with is_sleeping := true, state := STATE_SLEEPING }
    (a, true)
  else
    let a := sleep cfg a
    if a.max_sleep_energy ≤ a.sleep_energy then
      (a.wakeUp, false)
    else
      (a, true)

/-- `Agent.update`. -/
def update (cfg : Config) (dxy : Int × Int) (a : Agent) (w : World)
    (is_day : Bool) : Agent × World × StepResult :=
  if ¬a.alive then
    (a, w, StepResult.returned false)
  else if is_day then
    updateDaytime cfg dxy a w
  else
    let r := updateNighttime cfg a
    (r.1, w, StepResult.returned r.2)

end Agent

/-- The day/night synchronizer (`simulation/time_system.py`). -/
structure TimeSystem where
  is_day : Bool
  current_state : Nat
  day_count : Nat
  time_cycles : Nat
deriving DecidableEq, Repr

namespace TimeSystem

/-- `TimeSystem.STATE_DAY`. -/
def STATE_DAY : Nat := 0

/-- `TimeSystem.STATE_NIGHT`. -/
def STATE_NIGHT : Nat := 1

/-- `TimeSystem.__init__`. -/
def init : TimeSystem where
  is_day := true
  current_state := STATE_DAY
  day_count := 0
  time_cycles := 0

/-- `TimeSystem._get_living_agents`. -/
def getLivingAgents (agents : List Agent) : List Agent :=
  agents.filter (fun a => a.alive)

/-- `TimeSystem._transition_to_night`. -/
def transitionToNight (ts : TimeSystem) : TimeSystem :=
  { ts with
    is_day := false
    current_state := STATE_NIGHT
    time_cycles := ts.time_cycles + 1 }

/-- `TimeSystem._transition_to_day`. -/
def transitionToDay (ts : TimeSystem) : TimeSystem :=
  { ts with
    is_day := true
    current_state := STATE_DAY
    time_cycles := ts.time_cycles + 1
    day_count := ts.day_count + 1 }

/-- `TimeSystem._check_day_to_night_transition`. -/
def checkDayToNight (cfg : Config) (ts : TimeSystem)
    (living_agents : List Agent) : TimeSystem × Bool :=
  let all_agents_done :=
    living_agents.all (fun a => cfg.movesPerDay ≤ a.moves_today)
  if all_agents_done then
    (ts.transitionToNight, true)
  else
    (ts, false)

/-- `TimeSystem._check_night_to_day_transition`. -/
def checkNightToDay (ts : TimeSystem) (living_agents : List Agent) :
    TimeSystem × Bool :=
  let all_agents_awake := living_agents.all (fun a => ¬a.is_sleeping)
  if all_agents_awake then
    (ts.transitionToDay, true)
  else
    (ts, false)

/-- `TimeSystem.update`. -/
def update (cfg : Config) (ts : TimeSystem) (agents : List Agent) :
    TimeSystem × Bool :=
  let living_agents := getLivingAgents agents
  if living_agents = [] then
    (ts, false)
  else if ts.is_day then
    checkDayToNight cfg ts living_agents
  else
    checkNightToDay ts living_agents

end TimeSystem

namespace Game

/-- `Game._check_agents_at_home` (`simulation/game.py`): living agents
away from home forfeit `collected_calories // 2` (Python floor
division). -/
def checkAgentsAtHome (agents : List Agent) : List Agent :=
  agents.map fun a =>
    if a.alive then
      if a.isAtHome then
        a
      else
        let penalty := Int.fdiv a.collected_calories 2
        { a with collected_calories := a.collected_calories - penalty }
    else
      a

/-- `Game._check_time_transition`: run the time system and, on a
transition into night, apply the home-base check (the day branch only
touches the UI's active-agent index). -/
def checkTimeTransition (cfg : Config) (ts : TimeSystem)
    (agents : List Agent) : TimeSystem × List Agent :=
  let r := TimeSystem.update cfg ts agents
  if r.2 then
    if r.1.is_day then
      (r.1, agents)
    else
      (r.1, checkAgentsAtHome agents)
  else
    (r.1, agents)

end Game

/-! ## Shared concrete test fixtures -/

/-- An empty cell as produced by `World._create_empty_grid`. -/
def emptyCell : Cell := Cell.init defaultConfig false none 0

/-- A FULL food cell (`resources = RESOURCE_VALUE["food"] = 20`). -/
def foodCell : Cell := Cell.init defaultConfig true (some RType.food) 0

/-- A 3×3 world whose only resource is the food cell at `(1, 2)`. -/
def w6 : World where
  width := 3
  height := 3
  grid := fun p => if p = (1, 2) then foodCell else emptyCell

/-- A freshly initialized agent that is dead. -/
def deadAgent : Agent := { Agent.init defaultConfig 7 9 with alive := false, state := STATE_DEAD }

/-! ## C6 -/

/-- The agent of the C6 scenario: alive, `sleep_energy = 1`, below the
daily move quota, standing at `(1, 1)` next to the FULL food cell of
value 20 at `(1, 2)`. -/
def a6 : Agent := { Agent.init defaultConfig 1 1 with sleep_energy := 1 }

/-! ## C10 -/

/-- A returning-home agent that has already used its whole daily move
budget (`moves_today = 20 = MOVES_PER_DAY`), with one path step left
onto the in-bounds cell `(1, 2)`. -/
def a10 : Agent :=
  { Agent.init defaultConfig 1 1 with
    state := STATE_RETURNING
    returning_home := true
    path_to_home := [(1, 2)]
    moves_today := 20
    sleep_energy := 5 }

/-! ## C1 -/

/-- The C1 counterexample agent: a freshly created agent (at the home
base) with the initial `calories = 20 ≤ 50 = max_calories` and nothing
collected — every pool is within bounds. -/
def c1agent : Agent := Agent.init defaultConfig 25 25

/-! ## C3 -/

/-- `World.update` iterated; the `i`-th call uses the draws `ds i`. -/
def World.updateIter (cfg : Config) (ds : Nat → Pos → Nat) : Nat → World → World
  | 0, w => w
  | n + 1, w => World.update cfg (ds n) (World.updateIter cfg ds n w)

/-- The consumption step as worded by claim C3: identical to
`Cell.consume` except that, when regrowth is enabled, it also draws a
new random regrowth duration (`d` is the draw).  Used only to exhibit
how the source differs from the claim. -/
def Cell.consumeSpecC3 (cfg : Config) (d : Nat) (c : Cell) :
    Int × Option RType × Cell :=
  if c.state = CellState.full then
    let gained := c.resources
    let rt := c.resource_type
    let c := { c with resources := 0 }
    let c :=
      if cfg.regrowthEnabled then
        { c with
          state := CellState.regrowing
          regrowth_counter := 0
          regrowth_time := randint cfg.minRegrowthTime cfg.maxRegrowthTime d }
      else
        { c with state := CellState.consumed }
    (gained, rt, c)
  else
    (0, none, c)

/-- A FULL food cell whose current regrowth duration is 350. -/
def c3cell : Cell := Cell.init defaultConfig true (some RType.food) 50

/-- A concrete FULL cell with regrowth duration 2 for the C4
witness. -/
def c4cell : Cell := { foodCell with regrowth_time := 2 }

/-- Agents for the C5 witness: both alive, both at the quota. -/
def c5agents : List Agent :=
  [{ Agent.init defaultConfig 3 4 with moves_today := 20 },
   { Agent.init defaultConfig 9 9 with moves_today := 23 }]

/-- The C8 witness agent: foraging at `(1, 1)`, distance 48 from home,
whole move budget remaining. -/
def a8 : Agent := Agent.init defaultConfig 1 1

/-- Agents for the C9 witness: both alive at the move quota; the first
is at home, the second is away with 7 collected calories. -/
def c9agents : List Agent :=
  [{ Agent.init defaultConfig 25 25 with moves_today := 20 },
   { Agent.init defaultConfig 1 1 with
      moves_today := 20
      collected_calories := 7 }]

/-- The C1 witness agent: a freshly initialized agent with 5 collected
calories. -/
def c1wagent : Agent := { Agent.init defaultConfig 2 3 with collected_calories := 5 }

/-! ## World generation (`World.__init__` and helpers)

Cluster generation consumes randomness in three forms, all supplied by
an oracle: raw `randint` draws (`randNat`, consumed in program order
through a counter), the Boolean outcomes of `random.random() < p`
comparisons (`randBool`; every compared probability lies strictly
between 0 and 1 — densities 0.7/0.8 scaled by factors in
`[0.1, 1]` — so each comparison is a genuinely two-sided coin and the
Boolean outcome is a faithful abstraction of the floating-point
computation), and the per-cell `randint` draws of
`_create_empty_grid` (`initTime`). -/

/-- The randomness oracle for world generation. -/
structure GenOracle where
  randNat : Nat → Nat
  randBool : Nat → Bool
  initTime : Pos → Nat

/-- The `dx/dy` loop order of `World._get_valid_neighbors`. -/
def neighborOffsets : List (Int × Int) :=
  [(-1, -1), (-1, 0), (-1, 1), (0, -1), (0, 1), (1, -1), (1, 0), (1, 1)]

/-- `World._get_valid_neighbors` (bounds from the world under
construction). -/
def getValidNeighbors (width height x y : Int) : List Pos :=
  (neighborOffsets.map fun d => (x + d.1, y + d.2)).filter fun p =>
    decide (0 ≤ p.1 ∧ p.1 < width ∧ 0 ≤ p.2 ∧ p.2 < height)

/-- `World._river_priority`.  The source's float priorities
`2.0 / 1.0 / 0.5` are represented order-isomorphically as the naturals
`4 / 2 / 1`. -/
def riverPriority (river_dir perp_dir : Int × Int) (x y : Int) (pos : Pos) :
    Nat :=
  let dx := pos.1 - x
  let dy := pos.2 - y
  let river_alignment := dx * river_dir.1 + dy * river_dir.2
  let perp_alignment := dx * perp_dir.1 + dy * perp_dir.2
  if 0 < river_alignment then 4
  else if perp_alignment ≠ 0 then 2
  else 1

/-- Stable insertion for `sortByKey` (a new element goes before the
first strictly greater key, i.e. after equal keys, as in Python's
stable ascending `list.sort(key=...)`). -/
def insertByKey (key : Pos → Nat) (p : Pos) : List Pos → List Pos
  | [] => [p]
  | q :: rest =>
      if key q ≤ key p then q :: insertByKey key p rest
      else p :: q :: rest

/-- Stable ascending sort by key, mirroring Python's
`neighbors.sort(key=...)` (which sorts ascending — so, given the
comment in `_river_priority`, *low*-priority neighbors are processed
first; the claims do not depend on the order). -/
def sortByKey (key : Pos → Nat) : List Pos → List Pos
  | [] => []
  | p :: rest => insertByKey key p (sortByKey key rest)

/-- The mutable state of `World._grow_cluster`: the grid, the
`cluster_cells` list, the `cells_to_process` queue, and the randomness
counter. -/
structure GrowSt where
  grid : Pos → Cell
  cells : List Pos
  queue : List Pos
  ctr : Nat

/-- The `for nx, ny in neighbors:` loop body of `World._grow_cluster`:
skip already-resourced or already-claimed cells, otherwise flip the
spread coin; on success create the resource cell, record it, enqueue
it, and break once the cluster reaches its target size. -/
def spreadNeighbors (cfg : Config) (o : GenOracle) (rt : Option RType)
    (cid : Nat) (target : Nat) : List Pos → GrowSt → GrowSt
  | [], st => st
  | p :: rest, st =>
      if (st.grid p).hasRes = true ∨ p ∈ st.cells then
        spreadNeighbors cfg o rt cid target rest st
      else
        let b := o.randBool st.ctr
        let st1 : GrowSt := { st with ctr := st.ctr + 1 }
        if b then
          let c := { Cell.init cfg true rt (o.randNat st1.ctr) with
            cluster_id := some cid }
          let st2 : GrowSt := { st1 with
            ctr := st1.ctr + 1
            grid := World.setCell st1.grid p c
            cells := st1.cells ++ [p]
            queue := st1.queue ++ [p] }
          if target ≤ st2.cells.length then st2
          else spreadNeighbors cfg o rt cid target rest st2
        else
          spreadNeighbors cfg o rt cid target rest st1

/-- Decreasing measure of the `while cells_to_process and
len(cluster_cells) < target_size:` loop: every iteration pops one
queue entry and each admitted cell adds one to both lists while the
cluster is below target, so the measure strictly decreases (see
`spreadNeighbors_measure`). -/
def growMeasure (target : Nat) (st : GrowSt) : Nat :=
  2 * (target - st.cells.length) + st.queue.length

/-- The `while` loop of `World._grow_cluster`, with fuel; `growCluster`
runs it with fuel `growMeasure`, which suffices because the measure
strictly decreases at every iteration (`growLoopFuel_measure_eq`). -/
def growLoopFuel (cfg : Config) (o : GenOracle) (width height : Int)
    (rt : Option RType) (cid : Nat) (target : Nat) (is_river : Bool)
    (river_dir perp_dir : Int × Int) : Nat → GrowSt → GrowSt
  | 0, st => st
  | fuel + 1, st =>
      match st.queue with
      | [] => st
      | (cx, cy) :: rest =>
          if st.cells.length < target then
            let nbrs := getValidNeighbors width height cx cy
            let nbrs :=
              if is_river then
                sortByKey (riverPriority river_dir perp_dir cx cy) nbrs
              else nbrs
            let st' := spreadNeighbors cfg o rt cid target nbrs
              { st with queue := rest }
            growLoopFuel cfg o width height rt cid target is_river river_dir
              perp_dir fuel st'
          else st

/-- `is_river = resource_type == "water" and random.random() < 0.7`:
Python's `and` short-circuits, so no draw happens for other resource
types; returns the decision and the advanced draw counter. -/
def riverDraw (o : GenOracle) (rt : Option RType) (ctr : Nat) : Bool × Nat :=
  if rt = some RType.water then (o.randBool ctr, ctr + 1) else (false, ctr)

/-- `river_direction = random.choice([(0,1),(1,0),(1,1),(-1,1)])`, drawn
only for rivers; returns the direction and the advanced counter. -/
def riverDirectionDraw (o : GenOracle) (is_river : Bool) (ctr : Nat) :
    (Int × Int) × Nat :=
  if is_river then
    (match o.randNat ctr % 4 with
      | 0 => ((0, 1) : Int × Int)
      | 1 => (1, 0)
      | 2 => (1, 1)
      | _ => (-1, 1), ctr + 1)
  else ((0, 0), ctr)

/-- `World._grow_cluster`: place the center unconditionally, draw the
river decision and direction, then run the growth loop. -/
def growCluster (cfg : Config) (o : GenOracle) (width height : Int)
    (center_x center_y : Int) (target : Nat) (rt : Option RType) (cid : Nat)
    (grid : Pos → Cell) (ctr : Nat) : (Pos → Cell) × List Pos × Nat :=
  let c := { Cell.init cfg true rt (o.randNat ctr) with cluster_id := some cid }
  let grid := World.setCell grid (center_x, center_y) c
  let ctr := ctr + 1
  let river := riverDraw o rt ctr
  let dirdraw := riverDirectionDraw o river.1 river.2
  let river_dir := dirdraw.1
  let perp_dir : Int × Int := (river_dir.2, -river_dir.1)
  let st : GrowSt :=
    { grid := grid
      cells := [(center_x, center_y)]
      queue := [(center_x, center_y)]
      ctr := dirdraw.2 }
  let st := growLoopFuel cfg o width height rt cid target river.1 river_dir
    perp_dir (growMeasure target st) st
  (st.grid, st.cells, st.ctr)

/-- `World._generate_clusters`: the `for i in range(count)` loop, with
`cid = start_id + i`; draws the center coordinates
(`randint(0, width-1)` as `draw % width`) and the target size, grows
the cluster and appends its record. -/
def generateClusters (cfg : Config) (o : GenOracle) (width height : Int)
    (rt : Option RType) (size_min size_max : Nat) :
    Nat → Nat → (Pos → Cell) → List ClusterInfo → Nat →
      (Pos → Cell) × List ClusterInfo × Nat
  | _, 0, grid, clusters, ctr => (grid, clusters, ctr)
  | cid, count + 1, grid, clusters, ctr =>
      let center_x : Int := (o.randNat ctr : Int) % width
      let ctr := ctr + 1
      let center_y : Int := (o.randNat ctr : Int) % height
      let ctr := ctr + 1
      let target := randint size_min size_max (o.randNat ctr)
      let ctr := ctr + 1
      let g := growCluster cfg o width height center_x center_y target rt cid
        grid ctr
      let info : ClusterInfo :=
        { id := cid, rtype := rt, center := (center_x, center_y),
          size := g.2.1.length, cells := g.2.1 }
      generateClusters cfg o width height rt size_min size_max (cid + 1) count
        g.1 (clusters ++ [info]) g.2.2

/-- `World._generate_resource_clusters`: food clusters first (ids from
0), then water clusters (ids from `FOOD_CLUSTER_COUNT`). -/
def generateResourceClusters (cfg : Config) (o : GenOracle)
    (width height : Int) (grid : Pos → Cell) (ctr : Nat) :
    (Pos → Cell) × List ClusterInfo × Nat :=
  let f := generateClusters cfg o width height (some RType.food)
    cfg.foodClusterSizeMin cfg.foodClusterSizeMax 0 cfg.foodClusterCount grid
    [] ctr
  generateClusters cfg o width height (some RType.water)
    cfg.waterClusterSizeMin cfg.waterClusterSizeMax cfg.foodClusterCount
    cfg.waterClusterCount f.1 f.2.1 f.2.2

/-- `World.__init__`: empty grid, then clustered resource generation
(the statistics bookkeeping only prints). -/
def World.init (cfg : Config) (o : GenOracle) (width height : Int) : World :=
  let grid0 : Pos → Cell := fun p => Cell.init cfg false none (o.initTime p)
  let g := generateResourceClusters cfg o width height grid0 0
  { width := width, height := height, grid := g.1, clusters := g.2.1 }

/-- Every recorded cell of every cluster is resource-bearing in the
grid. -/
def ClustersFull (grid : Pos → Cell) (l : List ClusterInfo) : Prop :=
  ∀ c ∈ l, ∀ p ∈ c.cells, (grid p).hasRes = true

/-- Any cell shared between an earlier cluster `c` and a later cluster
`d` is `d`'s center. -/
def OverlapAtCenter (c d : ClusterInfo) : Prop :=
  ∀ p ∈ c.cells, p ∈ d.cells → p = d.center

/-- Configuration for the C7 counterexample: two food clusters of
target size exactly 1 and no water clusters. -/
def cfg7 : Config :=
  { defaultConfig with
      foodClusterCount := 2
      foodClusterSizeMin := 1
      foodClusterSizeMax := 1
      waterClusterCount := 0 }

/-- Oracle drawing 0 everywhere: both cluster centers land on
`(0, 0)`. -/
def o7 : GenOracle where
  randNat := fun _ => 0
  randBool := fun _ => false
  initTime := fun _ => 0

/-! ## C2 -/

/-- C2: once an agent is dead (`alive = False`), every `update(world,
is_day)` call, for any world, movement draw and time of day, returns
`False` and leaves the whole agent (position, calories,
collected_calories, sleep_energy, moves_today, days_survived, …) and
the world unchanged. -/
theorem c2_dead_update_noop (cfg : Config) (dxy : Int × Int) (a : Agent)
    (w : World) (is_day : Bool) (h : a.alive = false) :
    Agent.update cfg dxy a w is_day = (a, w, StepResult.returned false) := by
  simp [Agent.update, h]

/-- Witness for C2 at a concrete dead agent. -/
theorem c2_dead_update_noop_witness :
    deadAgent.alive = false ∧
      Agent.update defaultConfig (1, 0) deadAgent w6 true =
        (deadAgent, w6, StepResult.returned false) :=
  ⟨rfl, c2_dead_update_noop defaultConfig (1, 0) deadAgent w6 true rfl⟩

/-- C6 (code bug): in the scenario of the claim, `move()` onto the
resource cell does *not* add 20 to `collected_calories`, decrement
`sleep_energy` to 0 and kill the agent.  Instead
`self.collected_calories += calories_gained` adds the `(20, "food")`
pair returned by `world.consume_resources` to an int, raising
`TypeError` after the position update and the cell consumption and
before the sleep-energy cost, leaving the agent alive with
`sleep_energy = 1` and `collected_calories = 0`. -/
theorem c6_move_raises :
    a6.alive = true ∧ a6.sleep_energy = 1 ∧
      a6.moves_today < defaultConfig.movesPerDay ∧
      (w6.grid (1, 2)).state = CellState.full ∧
      (w6.grid (1, 2)).resources = 20 ∧
      (Agent.move defaultConfig (0, 1) a6 w6).2.2 = StepResult.raised ∧
      (Agent.move defaultConfig (0, 1) a6 w6).1.collected_calories = 0 ∧
      (Agent.move defaultConfig (0, 1) a6 w6).1.sleep_energy = 1 ∧
      (Agent.move defaultConfig (0, 1) a6 w6).1.alive = true ∧
      (Agent.move defaultConfig (0, 1) a6 w6).1.state ≠ STATE_DEAD ∧
      ((Agent.move defaultConfig (0, 1) a6 w6).2.1.grid (1, 2)).state =
        CellState.regrowing := by
  decide

/-- C10 (code bug): a daytime update of a RETURNING_HOME agent is
indeed not gated by the daily move budget — with `moves_today` already
at the quota the agent still pops its path step, moves to `(1, 2)` and
pays one sleep energy — but the step then raises `TypeError`
(`collected_calories += (value, type)` pair) before
`moves_today += 1`, so `moves_today` stays at the quota instead of
exceeding it. -/
theorem c10_returning_step_raises :
    defaultConfig.movesPerDay ≤ a10.moves_today ∧
      a10.returning_home = true ∧ a10.alive = true ∧
      (Agent.updateDaytime defaultConfig (0, 0) a10 w6).2.2 = StepResult.raised ∧
      (Agent.updateDaytime defaultConfig (0, 0) a10 w6).1.x = 1 ∧
      (Agent.updateDaytime defaultConfig (0, 0) a10 w6).1.y = 2 ∧
      (Agent.updateDaytime defaultConfig (0, 0) a10 w6).1.path_to_home = [] ∧
      (Agent.updateDaytime defaultConfig (0, 0) a10 w6).1.sleep_energy = 4 ∧
      (Agent.updateDaytime defaultConfig (0, 0) a10 w6).1.moves_today = 20 := by
  decide

/-- C1 counterexample: `consume_collected_calories` on an agent whose
pools are in bounds (calories 20, nothing collected) eats 0, burns the
daily requirement 25 from reserves and kills the agent with
`calories = -5`: the stored-energy pool is *not* clamped at 0 on the
operation that kills the agent. -/
theorem c1_counterexample :
    0 ≤ c1agent.calories ∧ c1agent.calories ≤ c1agent.max_calories ∧
      0 ≤ c1agent.sleep_energy ∧
      c1agent.sleep_energy ≤ c1agent.max_sleep_energy ∧
      (Agent.consumeCollectedCalories defaultConfig c1agent).calories = -5 ∧
      ¬(0 ≤ (Agent.consumeCollectedCalories defaultConfig c1agent).calories) ∧
      (Agent.consumeCollectedCalories defaultConfig c1agent).alive = false := by
  decide

/-- Writing back the unchanged cell is a no-op. -/
theorem setCell_self (g : Pos → Cell) (p : Pos) : World.setCell g p (g p) = g := by
  funext q
  unfold World.setCell
  split <;> simp_all

/-- With regrowth disabled `Cell.update` is the identity. -/
theorem Cell.update_disabled (cfg : Config) (d : Nat) (c : Cell)
    (h : cfg.regrowthEnabled = false) : Cell.update cfg d c = c := by
  simp [Cell.update, h]

/-- With regrowth disabled, iterated world updates do not change any
cell. -/
theorem World.updateIter_disabled (cfg : Config) (ds : Nat → Pos → Nat)
    (h : cfg.regrowthEnabled = false) :
    ∀ (n : Nat) (w : World) (p : Pos),
      (World.updateIter cfg ds n w).grid p = w.grid p := by
  intro n
  induction n with
  | zero => intro w p; rfl
  | succ n ih =>
      intro w p
      show Cell.update cfg _ ((World.updateIter cfg ds n w).grid p) = _
      rw [Cell.update_disabled cfg _ _ h, ih]

/-- C3 counterexample: consuming a FULL cell does *not* draw a new
random regrowth duration.  `Cell.consume` consults no randomness and
leaves `regrowth_time` at 350, whereas the consumption worded by the
claim (`consumeSpecC3`) would replace it with the freshly drawn 301
(`randint(300, 400)` on the next draw 1).  The duration is re-rolled
only at cell creation and at regrowth completion. -/
theorem c3_counterexample :
    c3cell.state = CellState.full ∧ c3cell.regrowth_time = 350 ∧
      (Cell.consume defaultConfig c3cell).2.2.regrowth_time = 350 ∧
      (Cell.consumeSpecC3 defaultConfig 1 c3cell).2.2.regrowth_time = 301 ∧
      (350 : Nat) ≠ 301 := by
  decide

/-- C3 amended: `consume(x, y)` on the world is a no-op returning
`(0, none)` whenever the target cell is not FULL, including
out-of-bounds coordinates; on a FULL cell it returns that cell's
`(resource amount, resource type)`, zeroes its resources, keeps its
current regrowth duration (no new draw happens at consumption), resets
the regrowth counter and moves it to REGROWING if regrowth is enabled,
else to CONSUMED; no other cell changes.  With regrowth disabled a
CONSUMED cell stays CONSUMED, yielding `(0, none)` from any further
consume, across any number of `update()` calls. -/
theorem c3_consume_spec (cfg : Config) (w : World) (x y : Int) :
    (w.isValidPosition x y = false →
        World.consumeResources cfg w x y = ((0, none), w)) ∧
    (w.isValidPosition x y = true →
      (w.grid (x, y)).state ≠ CellState.full →
        World.consumeResources cfg w x y = ((0, none), w)) ∧
    (w.isValidPosition x y = true →
      (w.grid (x, y)).state = CellState.full →
        (World.consumeResources cfg w x y).1 =
          ((w.grid (x, y)).resources, (w.grid (x, y)).resource_type) ∧
        ((World.consumeResources cfg w x y).2.grid (x, y)).resources = 0 ∧
        ((World.consumeResources cfg w x y).2.grid (x, y)).regrowth_time =
          (w.grid (x, y)).regrowth_time ∧
        (cfg.regrowthEnabled = true →
          ((World.consumeResources cfg w x y).2.grid (x, y)).state =
              CellState.regrowing ∧
            ((World.consumeResources cfg w x y).2.grid (x, y)).regrowth_counter
              = 0) ∧
        (cfg.regrowthEnabled = false →
          ((World.consumeResources cfg w x y).2.grid (x, y)).state =
            CellState.consumed) ∧
        (∀ p : Pos, p ≠ (x, y) →
          (World.consumeResources cfg w x y).2.grid p = w.grid p)) ∧
    (cfg.regrowthEnabled = false →
      (w.grid (x, y)).state = CellState.consumed →
        ∀ (n : Nat) (ds : Nat → Pos → Nat),
          ((World.updateIter cfg ds n w).grid (x, y)).state =
              CellState.consumed ∧
            (World.consumeResources cfg (World.updateIter cfg ds n w) x y).1 =
              (0, none)) := by
  refine ⟨?_, ?_, ?_, ?_⟩
  · intro hv
    simp [World.consumeResources, World.getCell, hv]
  · intro hv hs
    simp only [World.consumeResources, World.getCell, hv, if_true]
    simp only [Cell.consume, if_neg hs]
    simp [setCell_self]
  · intro hv hs
    simp only [World.consumeResources, World.getCell, hv, if_true]
    simp only [Cell.consume, if_pos hs, Cell.performConsumption]
    refine ⟨by trivial, ?_, ?_, ?_, ?_, ?_⟩
    · simp [World.setCell]
      split <;> rfl
    · simp [World.setCell]
      split <;> rfl
    · intro hen
      simp [World.setCell, hen]
    · intro hen
      simp [World.setCell, hen]
    · intro p hp
      simp [World.setCell, hp]
  · intro hen hs n ds
    have hcell := World.updateIter_disabled cfg ds hen n w (x, y)
    constructor
    · rw [hcell, hs]
    · by_cases hv : (World.updateIter cfg ds n w).isValidPosition x y = true
      · simp only [World.consumeResources, World.getCell, hv, if_true]
        rw [show ((World.updateIter cfg ds n w).grid (x, y)) = w.grid (x, y) from hcell]
        simp [Cell.consume, hs]
      · simp only [World.consumeResources, World.getCell]
        rw [if_neg hv]

/-! ## C4 -/

/-- While the counter has not reached the regrowth duration, each
update just increments it. -/
theorem Cell.updateIter_regrowing (cfg : Config) (ds : Nat → Nat) (c0 : Cell)
    (hen : cfg.regrowthEnabled = true) (hs : c0.state = CellState.regrowing)
    (hc : c0.regrowth_counter = 0) :
    ∀ k, k < c0.regrowth_time →
      Cell.updateIter cfg ds k c0 = { c0 with regrowth_counter := k } := by
  intro k
  induction k with
  | zero =>
      intro _
      show c0 = _
      cases c0
      simp_all
  | succ k ih =>
      intro hk
      have hk' : k < c0.regrowth_time := Nat.lt_of_succ_lt hk
      show Cell.update cfg (ds k) (Cell.updateIter cfg ds k c0) = _
      rw [ih hk']
      simp only [Cell.update, hen, Bool.not_true, false_and, if_false,
        Cell.progressRegrowth]
      simp only [hs, if_true]
      have : ¬(c0.regrowth_time ≤ k + 1) := Nat.not_le_of_lt hk
      simp [this]

/-- C4: with regrowth enabled, consuming a FULL cell puts it in
REGROWING, it stays REGROWING strictly before `regrowth_time` further
`update()` calls (where `regrowth_time` is the cell's regrowth duration
at the moment of consumption), and after exactly `regrowth_time`
updates it is FULL again with resource amount equal to its resource
type's configured value — for every stream of regrowth-duration
draws. -/
theorem c4_regrowth_roundtrip (cfg : Config) (c : Cell) (ds : Nat → Nat)
    (hen : cfg.regrowthEnabled = true) (hf : c.state = CellState.full)
    (hrt : 1 ≤ c.regrowth_time) :
    (Cell.consume cfg c).2.2.state = CellState.regrowing ∧
      (∀ k, k < c.regrowth_time →
        (Cell.updateIter cfg ds k (Cell.consume cfg c).2.2).state =
          CellState.regrowing) ∧
      (Cell.updateIter cfg ds c.regrowth_time (Cell.consume cfg c).2.2).state =
        CellState.full ∧
      (Cell.updateIter cfg ds c.regrowth_time
          (Cell.consume cfg c).2.2).resources =
        cfg.resourceValue c.resource_type := by
  have hc0 : (Cell.consume cfg c).2.2 =
      ({ c with
          resources := 0
          state := CellState.regrowing
          regrowth_counter := 0 } : Cell) := by
    rw [Cell.consume, if_pos hf]
    simp [Cell.performConsumption, hen]
  rw [hc0]
  have hiter := Cell.updateIter_regrowing cfg ds
    ({ c with
        resources := 0
        state := CellState.regrowing
        regrowth_counter := 0 } : Cell) hen rfl rfl
  refine ⟨rfl, ?_, ?_⟩
  · intro k hk
    rw [hiter k hk]
  · obtain ⟨m, hm⟩ : ∃ m, c.regrowth_time = m + 1 :=
      ⟨c.regrowth_time - 1, by omega⟩
    have hm' : m < c.regrowth_time := by omega
    have hstep : Cell.updateIter cfg ds c.regrowth_time
        ({ c with
            resources := 0
            state := CellState.regrowing
            regrowth_counter := 0 } : Cell) =
        Cell.update cfg (ds m) (Cell.updateIter cfg ds m
          ({ c with
              resources := 0
              state := CellState.regrowing
              regrowth_counter := 0 } : Cell)) := by
      rw [hm]
      rfl
    rw [hstep, hiter m hm']
    simp [Cell.update, hen, Cell.progressRegrowth, Cell.completeRegrowth, hm]

/-- Witness for C4 at a concrete cell with `regrowth_time = 2`. -/
theorem c4_regrowth_roundtrip_witness :
    (defaultConfig.regrowthEnabled = true ∧ c4cell.state = CellState.full ∧
        1 ≤ c4cell.regrowth_time) ∧
      ((Cell.consume defaultConfig c4cell).2.2.state = CellState.regrowing ∧
        (∀ k, k < c4cell.regrowth_time →
          (Cell.updateIter defaultConfig (fun _ => 0) k
              (Cell.consume defaultConfig c4cell).2.2).state =
            CellState.regrowing) ∧
        (Cell.updateIter defaultConfig (fun _ => 0) c4cell.regrowth_time
            (Cell.consume defaultConfig c4cell).2.2).state = CellState.full ∧
        (Cell.updateIter defaultConfig (fun _ => 0) c4cell.regrowth_time
            (Cell.consume defaultConfig c4cell).2.2).resources =
          defaultConfig.resourceValue c4cell.resource_type) :=
  ⟨⟨rfl, rfl, by decide⟩,
    c4_regrowth_roundtrip defaultConfig c4cell (fun _ => 0) rfl rfl (by decide)⟩

/-! ## C5 -/

/-- C5: while it is day, `TimeSystem.update(agents)` transitions to
night and returns `True` exactly when there is a living agent and every
living agent's `moves_today` has reached the daily quota; otherwise
(some living agent below the quota, or no living agent at all) it
returns `False` and leaves the time system unchanged.  On the
transition the day flag flips to night and the cycle counter is
incremented. -/
theorem c5_day_night_barrier (cfg : Config) (ts : TimeSystem)
    (agents : List Agent) (h : ts.is_day = true) :
    ((TimeSystem.update cfg ts agents).2 = true ↔
        TimeSystem.getLivingAgents agents ≠ [] ∧
          ∀ a ∈ TimeSystem.getLivingAgents agents,
            cfg.movesPerDay ≤ a.moves_today) ∧
      ((TimeSystem.update cfg ts agents).2 = false →
        (TimeSystem.update cfg ts agents).1 = ts) ∧
      ((TimeSystem.update cfg ts agents).2 = true →
        (TimeSystem.update cfg ts agents).1 = ts.transitionToNight) := by
  by_cases hl : TimeSystem.getLivingAgents agents = []
  · simp [TimeSystem.update, hl]
  · by_cases hall : ∀ a ∈ TimeSystem.getLivingAgents agents,
        cfg.movesPerDay ≤ a.moves_today
    · have hupd : TimeSystem.update cfg ts agents = (ts.transitionToNight, true) := by
        simp only [TimeSystem.update, hl, if_neg, h, if_true,
          TimeSystem.checkDayToNight]
        simp only [List.all_eq_true, decide_eq_true_eq]
        rw [if_pos hall]
        simp
      rw [hupd]
      exact ⟨⟨fun _ => ⟨hl, hall⟩, fun _ => rfl⟩,
        fun hcontra => absurd hcontra (by simp),
        fun _ => rfl⟩
    · have hupd : TimeSystem.update cfg ts agents = (ts, false) := by
        simp only [TimeSystem.update, hl, if_neg, h, if_true,
          TimeSystem.checkDayToNight]
        simp only [List.all_eq_true, decide_eq_true_eq]
        rw [if_neg hall]
        simp
      rw [hupd]
      exact ⟨⟨fun hcontra => absurd hcontra (by simp), fun hp => absurd hp.2 hall⟩,
        fun _ => rfl, fun hcontra => absurd hcontra (by simp)⟩

/-- Witness for C5 at a concrete day-time system and agent list. -/
theorem c5_day_night_barrier_witness :
    TimeSystem.init.is_day = true ∧
      (((TimeSystem.update defaultConfig TimeSystem.init c5agents).2 = true ↔
          TimeSystem.getLivingAgents c5agents ≠ [] ∧
            ∀ a ∈ TimeSystem.getLivingAgents c5agents,
              defaultConfig.movesPerDay ≤ a.moves_today) ∧
        ((TimeSystem.update defaultConfig TimeSystem.init c5agents).2 = false →
          (TimeSystem.update defaultConfig TimeSystem.init c5agents).1 =
            TimeSystem.init) ∧
        ((TimeSystem.update defaultConfig TimeSystem.init c5agents).2 = true →
          (TimeSystem.update defaultConfig TimeSystem.init c5agents).1 =
            TimeSystem.init.transitionToNight)) :=
  ⟨rfl, c5_day_night_barrier defaultConfig TimeSystem.init c5agents rfl⟩

/-! ## C8 -/

/-- C8: during a daytime update, a foraging agent (not already
returning home) switches to RETURNING_HOME and computes its path home
exactly when its Manhattan distance to the home base is at least the
remaining daily moves (`MOVES_PER_DAY - moves_today`); strictly below
that threshold the check leaves it untouched and the whole daytime
update keeps it foraging (state ACTIVE, not returning home, path
unchanged) for every movement draw and world. -/
theorem c8_return_home_trigger (cfg : Config) (a : Agent)
    (hret : a.returning_home = false) (hstate : a.state = STATE_ACTIVE) :
    (cfg.movesPerDay - a.moves_today ≤ a.getDistanceToHome →
        Agent.dayCheckReturnHome cfg a =
          { a with
              returning_home := true
              state := STATE_RETURNING
              path_to_home := Agent.calculatePathToHome a }) ∧
      (a.getDistanceToHome < cfg.movesPerDay - a.moves_today →
        Agent.dayCheckReturnHome cfg a = a ∧
          ∀ (dxy : Int × Int) (w : World),
            (Agent.updateDaytime cfg dxy a w).1.returning_home = false ∧
              (Agent.updateDaytime cfg dxy a w).1.state = STATE_ACTIVE ∧
              (Agent.updateDaytime cfg dxy a w).1.path_to_home =
                a.path_to_home) := by
  constructor
  · intro hd
    simp only [Agent.dayCheckReturnHome]
    rw [if_pos]
    exact ⟨by simp [hret], hd⟩
  · intro hd
    have hchk : Agent.dayCheckReturnHome cfg a = a := by
      simp only [Agent.dayCheckReturnHome]
      rw [if_neg]
      intro hcontra
      exact absurd hcontra.2 (not_le.mpr hd)
    refine ⟨hchk, ?_⟩
    intro dxy w
    simp only [Agent.updateDaytime, hchk, hret, Bool.false_eq_true, if_false]
    by_cases hm : a.moves_today < cfg.movesPerDay
    · simp only [hm, if_true]
      by_cases hv : w.isValidPosition (a.x + dxy.1) (a.y + dxy.2) = true
      · simp [Agent.move, Agent.calculateMovement, Agent.performMove, hv,
          hret, hstate, Agent.dayMoveCounter, StepResult.isRaised,
          StepResult.actedB]
      · simp [Agent.move, Agent.calculateMovement, hv, hret, hstate,
          Agent.dayMoveCounter, StepResult.isRaised, StepResult.actedB]
    · simp [hm, hret, hstate, Agent.dayMoveCounter, StepResult.isRaised,
        StepResult.actedB]

/-- Witness for C8 at a concrete foraging agent (distance 48 ≥ 20
remaining moves, so the switch fires). -/
theorem c8_return_home_trigger_witness :
    (a8.returning_home = false ∧ a8.state = STATE_ACTIVE ∧
        defaultConfig.movesPerDay - a8.moves_today ≤ a8.getDistanceToHome) ∧
      Agent.dayCheckReturnHome defaultConfig a8 =
        { a8 with
            returning_home := true
            state := STATE_RETURNING
            path_to_home := Agent.calculatePathToHome a8 } :=
  ⟨⟨rfl, rfl, by decide⟩,
    (c8_return_home_trigger defaultConfig a8 rfl rfl).1 (by decide)⟩

/-! ## C9 -/

/-- C9: on the tick where the day-to-night transition fires, the
coordinator runs the home-base check: every living agent away from the
home coordinate forfeits exactly `collected_calories // 2` (the
integer floor of half) and nothing else about it changes (same state,
position, calories, sleep energy; it stays alive), while living agents
at home and dead agents are left untouched. -/
theorem c9_dusk_penalty (cfg : Config) (ts : TimeSystem) (agents : List Agent)
    (hday : ts.is_day = true)
    (hfire : (TimeSystem.update cfg ts agents).2 = true) :
    (Game.checkTimeTransition cfg ts agents).2 = Game.checkAgentsAtHome agents ∧
      (Game.checkAgentsAtHome agents).length = agents.length ∧
      ∀ (i : Nat) (hi : i < agents.length)
          (hi' : i < (Game.checkAgentsAtHome agents).length),
        (agents[i].alive = false →
          (Game.checkAgentsAtHome agents)[i] = agents[i]) ∧
          (agents[i].alive = true → agents[i].isAtHome = true →
            (Game.checkAgentsAtHome agents)[i] = agents[i]) ∧
          (agents[i].alive = true → agents[i].isAtHome = false →
            (Game.checkAgentsAtHome agents)[i] =
              { agents[i] with
                  collected_calories := agents[i].collected_calories -
                    Int.fdiv agents[i].collected_calories 2 }) := by
  have hnight : (TimeSystem.update cfg ts agents).1.is_day = false := by
    by_cases hl : TimeSystem.getLivingAgents agents = []
    · simp [TimeSystem.update, hl] at hfire
    · simp only [TimeSystem.update, hl, if_false, hday, if_true,
        TimeSystem.checkDayToNight] at hfire ⊢
      split at hfire
      · split
        · rfl
        · simp_all
      · simp_all
  refine ⟨?_, ?_, ?_⟩
  · simp [Game.checkTimeTransition, hfire, hnight]
  · simp [Game.checkAgentsAtHome]
  · intro i hi hi'
    refine ⟨?_, ?_, ?_⟩
    · intro hdead
      simp [Game.checkAgentsAtHome, hdead]
    · intro halive hhome
      simp [Game.checkAgentsAtHome, halive, hhome]
    · intro halive haway
      simp [Game.checkAgentsAtHome, halive, haway]

/-- Witness for C9 at a concrete firing transition. -/
theorem c9_dusk_penalty_witness :
    (TimeSystem.init.is_day = true ∧
        (TimeSystem.update defaultConfig TimeSystem.init c9agents).2 = true) ∧
      ((Game.checkTimeTransition defaultConfig TimeSystem.init c9agents).2 =
          Game.checkAgentsAtHome c9agents ∧
        (Game.checkAgentsAtHome c9agents).length = c9agents.length ∧
        ∀ (i : Nat) (hi : i < c9agents.length)
            (hi' : i < (Game.checkAgentsAtHome c9agents).length),
          (c9agents[i].alive = false →
            (Game.checkAgentsAtHome c9agents)[i] = c9agents[i]) ∧
            (c9agents[i].alive = true → c9agents[i].isAtHome = true →
              (Game.checkAgentsAtHome c9agents)[i] = c9agents[i]) ∧
            (c9agents[i].alive = true → c9agents[i].isAtHome = false →
              (Game.checkAgentsAtHome c9agents)[i] =
                { c9agents[i] with
                    collected_calories := c9agents[i].collected_calories -
                      Int.fdiv c9agents[i].collected_calories 2 })) :=
  ⟨⟨rfl, by decide⟩,
    c9_dusk_penalty defaultConfig TimeSystem.init c9agents rfl (by decide)⟩


/-- `sleep()` keeps the sleep pool within `[0, max]` and touches no
calorie field. -/
theorem Agent.sleep_bounds (cfg : Config) (a : Agent)
    (hs1 : 0 ≤ a.sleep_energy) (hs2 : a.sleep_energy ≤ a.max_sleep_energy)
    (hg : 0 ≤ cfg.sleepEnergyGain) :
    0 ≤ (Agent.sleep cfg a).sleep_energy ∧
      (Agent.sleep cfg a).sleep_energy ≤ (Agent.sleep cfg a).max_sleep_energy ∧
      (Agent.sleep cfg a).calories = a.calories ∧
      (Agent.sleep cfg a).max_sleep_energy = a.max_sleep_energy ∧
      (Agent.sleep cfg a).max_calories = a.max_calories ∧
      (Agent.sleep cfg a).alive = a.alive := by
  simp only [Agent.sleep]
  split <;> refine ⟨?_, ?_, rfl, rfl, rfl, rfl⟩ <;> simp_all <;> omega

/-- `consume_collected_calories()` caps stored calories at the
maximum, leaves the sleep pool alone, and can leave `calories`
negative only by killing the agent. -/
theorem Agent.consumeCollected_bounds (cfg : Config) (a : Agent)
    (hc0 : 0 ≤ a.calories) (hc1 : a.calories ≤ a.max_calories)
    (hcol : 0 ≤ a.collected_calories)
    (hd : 0 ≤ cfg.calorieConsumptionPerDay) :
    (Agent.consumeCollectedCalories cfg a).sleep_energy = a.sleep_energy ∧
      (Agent.consumeCollectedCalories cfg a).max_sleep_energy =
        a.max_sleep_energy ∧
      (Agent.consumeCollectedCalories cfg a).max_calories = a.max_calories ∧
      (Agent.consumeCollectedCalories cfg a).calories ≤ a.max_calories ∧
      ((Agent.consumeCollectedCalories cfg a).alive = true →
        (Agent.consumeCollectedCalories cfg a).alive = a.alive ∧
          0 ≤ (Agent.consumeCollectedCalories cfg a).calories) := by
  simp only [Agent.consumeCollectedCalories, Agent.die]
  repeat' split
  all_goals
    refine ⟨rfl, rfl, rfl, by simp_all <;> omega, ?_⟩
  all_goals intro halive
  all_goals first
    | (refine ⟨rfl, ?_⟩; simp_all <;> omega)
    | (exfalso; simp_all)

/-- A foraging `move()` never touches the energy pools (the Python
`TypeError` fires before the sleep-energy cost). -/
theorem Agent.move_energy (cfg : Config) (dxy : Int × Int) (a : Agent)
    (w : World) :
    (Agent.move cfg dxy a w).1.sleep_energy = a.sleep_energy ∧
      (Agent.move cfg dxy a w).1.calories = a.calories ∧
      (Agent.move cfg dxy a w).1.collected_calories = a.collected_calories ∧
      (Agent.move cfg dxy a w).1.max_sleep_energy = a.max_sleep_energy ∧
      (Agent.move cfg dxy a w).1.max_calories = a.max_calories ∧
      (Agent.move cfg dxy a w).1.alive = a.alive := by
  simp only [Agent.move, Agent.calculateMovement, Agent.performMove]
  split <;> simp

/-- A homeward step costs at most one sleep energy and touches no
calorie field. -/
theorem Agent.moveTowardsHome_energy (cfg : Config) (a : Agent) (w : World)
    (hs1 : 1 ≤ a.sleep_energy) (hs2 : a.sleep_energy ≤ a.max_sleep_energy) :
    0 ≤ (Agent.moveTowardsHome cfg a w).1.sleep_energy ∧
      (Agent.moveTowardsHome cfg a w).1.sleep_energy ≤
        (Agent.moveTowardsHome cfg a w).1.max_sleep_energy ∧
      (Agent.moveTowardsHome cfg a w).1.calories = a.calories ∧
      (Agent.moveTowardsHome cfg a w).1.max_calories = a.max_calories := by
  simp only [Agent.moveTowardsHome, Agent.die, Agent.calculatePathToHome]
  repeat' split
  all_goals refine ⟨?_, ?_, rfl, rfl⟩ <;> simp_all <;> omega

/-- The move-counter bookkeeping touches only `moves_today`. -/
theorem Agent.dayMoveCounter_energy (r : Agent × World × StepResult) :
    (Agent.dayMoveCounter r).1.sleep_energy = r.1.sleep_energy ∧
      (Agent.dayMoveCounter r).1.max_sleep_energy = r.1.max_sleep_energy ∧
      (Agent.dayMoveCounter r).1.calories = r.1.calories ∧
      (Agent.dayMoveCounter r).1.max_calories = r.1.max_calories ∧
      (Agent.dayMoveCounter r).1.alive = r.1.alive := by
  simp only [Agent.dayMoveCounter]
  repeat' split
  all_goals simp

/-- The return-home check touches no energy field. -/
theorem Agent.dayCheck_energy (cfg : Config) (a : Agent) :
    (Agent.dayCheckReturnHome cfg a).sleep_energy = a.sleep_energy ∧
      (Agent.dayCheckReturnHome cfg a).max_sleep_energy = a.max_sleep_energy ∧
      (Agent.dayCheckReturnHome cfg a).calories = a.calories ∧
      (Agent.dayCheckReturnHome cfg a).max_calories = a.max_calories ∧
      (Agent.dayCheckReturnHome cfg a).alive = a.alive := by
  simp only [Agent.dayCheckReturnHome]
  split <;> simp

/-- A whole daytime update keeps the sleep pool within `[0, max]` and
never changes the calorie reserve. -/
theorem Agent.updateDaytime_energy (cfg : Config) (dxy : Int × Int) (a : Agent)
    (w : World) (hs1 : 1 ≤ a.sleep_energy)
    (hs2 : a.sleep_energy ≤ a.max_sleep_energy) :
    0 ≤ (Agent.updateDaytime cfg dxy a w).1.sleep_energy ∧
      (Agent.updateDaytime cfg dxy a w).1.sleep_energy ≤
        (Agent.updateDaytime cfg dxy a w).1.max_sleep_energy ∧
      (Agent.updateDaytime cfg dxy a w).1.calories = a.calories ∧
      (Agent.updateDaytime cfg dxy a w).1.max_calories = a.max_calories := by
  obtain ⟨e1, e2, e3, e4, e5⟩ := Agent.dayCheck_energy cfg a
  simp only [Agent.updateDaytime]
  have hcnt := Agent.dayMoveCounter_energy
  set a1 := Agent.dayCheckReturnHome cfg a with ha1
  by_cases hret : a1.returning_home = true
  · rw [if_pos hret]
    obtain ⟨f1, f2, f3, f4, _⟩ := hcnt (Agent.moveTowardsHome cfg a1 w)
    have hmh := Agent.moveTowardsHome_energy cfg a1 w (by omega) (by omega)
    omega
  · rw [if_neg hret]
    by_cases hm : a1.moves_today < cfg.movesPerDay
    · rw [if_pos hm]
      obtain ⟨f1, f2, f3, f4, _⟩ := hcnt (Agent.move cfg dxy a1 w)
      have hmv := Agent.move_energy cfg dxy a1 w
      omega
    · rw [if_neg hm]
      obtain ⟨f1, f2, f3, f4, _⟩ := hcnt (a1, w, StepResult.returned false)
      refine ⟨?_, ?_, ?_, ?_⟩
      · rw [f1]; show 0 ≤ a1.sleep_energy; omega
      · rw [f1, f2]; show a1.sleep_energy ≤ a1.max_sleep_energy; omega
      · rw [f3]; exact e3
      · rw [f4]; exact e4

/-- A nighttime update keeps the sleep pool within `[0, max]`, keeps
calories at most the maximum, and can leave calories negative only by
killing the agent (starvation). -/
theorem Agent.updateNighttime_bounds (cfg : Config) (a : Agent)
    (hs1 : 0 ≤ a.sleep_energy) (hs2 : a.sleep_energy ≤ a.max_sleep_energy)
    (hc0 : 0 ≤ a.calories) (hc1 : a.calories ≤ a.max_calories)
    (hcol : 0 ≤ a.collected_calories)
    (hg : 0 ≤ cfg.sleepEnergyGain) (hd : 0 ≤ cfg.calorieConsumptionPerDay) :
    0 ≤ (Agent.updateNighttime cfg a).1.sleep_energy ∧
      (Agent.updateNighttime cfg a).1.sleep_energy ≤
        (Agent.updateNighttime cfg a).1.max_sleep_energy ∧
      (Agent.updateNighttime cfg a).1.calories ≤
        (Agent.updateNighttime cfg a).1.max_calories ∧
      ((Agent.updateNighttime cfg a).1.alive = true →
        0 ≤ (Agent.updateNighttime cfg a).1.calories) := by
  simp only [Agent.updateNighttime, Agent.sleep, Agent.consumeCollectedCalories,
    Agent.die, Agent.wakeUp]
  repeat' split
  all_goals refine ⟨?_, ?_, ?_, ?_⟩ <;> (try intro halive) <;> simp_all <;> omega

/-- C1 amended: starting from any live agent whose pools are in bounds
(`1 ≤ sleep_energy ≤ max`, `0 ≤ calories ≤ max`, nothing negative
collected), every public operation (`update` during day or night,
`move`, `sleep`, `consume_collected_calories`) keeps
`0 ≤ sleep_energy ≤ max_sleep_energy` and `calories ≤ max_calories`;
and `0 ≤ calories` still holds after every operation except one that
kills the agent by starvation (`consume_collected_calories`, also via
the first nighttime `update`), where the stored-energy pool may be left
negative — the lower clamp the claim asserts is absent there. -/
theorem c1_energy_bounds_amended (cfg : Config) (a : Agent)
    (hs1 : 1 ≤ a.sleep_energy) (hs2 : a.sleep_energy ≤ a.max_sleep_energy)
    (hc0 : 0 ≤ a.calories) (hc1 : a.calories ≤ a.max_calories)
    (hcol : 0 ≤ a.collected_calories)
    (hg : 0 ≤ cfg.sleepEnergyGain) (hd : 0 ≤ cfg.calorieConsumptionPerDay) :
    (0 ≤ (Agent.sleep cfg a).sleep_energy ∧
        (Agent.sleep cfg a).sleep_energy ≤
          (Agent.sleep cfg a).max_sleep_energy ∧
        (Agent.sleep cfg a).calories = a.calories) ∧
      ((Agent.consumeCollectedCalories cfg a).sleep_energy = a.sleep_energy ∧
        (Agent.consumeCollectedCalories cfg a).calories ≤
          (Agent.consumeCollectedCalories cfg a).max_calories ∧
        ((Agent.consumeCollectedCalories cfg a).alive = true →
          0 ≤ (Agent.consumeCollectedCalories cfg a).calories)) ∧
      (∀ (dxy : Int × Int) (w : World),
        (Agent.move cfg dxy a w).1.sleep_energy = a.sleep_energy ∧
          (Agent.move cfg dxy a w).1.calories = a.calories) ∧
      (∀ (dxy : Int × Int) (w : World) (is_day : Bool),
        0 ≤ (Agent.update cfg dxy a w is_day).1.sleep_energy ∧
          (Agent.update cfg dxy a w is_day).1.sleep_energy ≤
            (Agent.update cfg dxy a w is_day).1.max_sleep_energy ∧
          (Agent.update cfg dxy a w is_day).1.calories ≤
            (Agent.update cfg dxy a w is_day).1.max_calories ∧
          ((Agent.update cfg dxy a w is_day).1.alive = true →
            0 ≤ (Agent.update cfg dxy a w is_day).1.calories)) := by
  refine ⟨?_, ?_, ?_, ?_⟩
  · obtain ⟨g1, g2, g3, _, _, _⟩ :=
      Agent.sleep_bounds cfg a (by omega) hs2 hg
    exact ⟨g1, g2, g3⟩
  · obtain ⟨k1, k2, k3, k4, k5⟩ :=
      Agent.consumeCollected_bounds cfg a hc0 hc1 hcol hd
    exact ⟨k1, by omega, fun h => (k5 h).2⟩
  · intro dxy w
    obtain ⟨m1, m2, _, _, _, _⟩ := Agent.move_energy cfg dxy a w
    exact ⟨m1, m2⟩
  · intro dxy w is_day
    simp only [Agent.update]
    by_cases halive : a.alive = true
    · rw [if_neg (not_not_intro halive)]
      cases is_day
      · rw [if_neg (by simp)]
        obtain ⟨n1, n2, n3, n4⟩ :=
          Agent.updateNighttime_bounds cfg a (by omega) hs2 hc0 hc1 hcol hg hd
        exact ⟨n1, n2, n3, n4⟩
      · rw [if_pos rfl]
        obtain ⟨d1, d2, d3, d4⟩ :=
          Agent.updateDaytime_energy cfg dxy a w hs1 hs2
        refine ⟨d1, d2, ?_, ?_⟩
        · rw [d3, d4]; exact hc1
        · intro _; rw [d3]; exact hc0
    · rw [if_pos halive]
      exact ⟨(by omega : (0 : Int) ≤ a.sleep_energy), hs2, hc1, fun _ => hc0⟩

/-- Witness for the amended C1 at a concrete agent. -/
theorem c1_energy_bounds_amended_witness :
    (1 ≤ c1wagent.sleep_energy ∧
        c1wagent.sleep_energy ≤ c1wagent.max_sleep_energy ∧
        0 ≤ c1wagent.calories ∧ c1wagent.calories ≤ c1wagent.max_calories ∧
        0 ≤ c1wagent.collected_calories ∧
        0 ≤ defaultConfig.sleepEnergyGain ∧
        0 ≤ defaultConfig.calorieConsumptionPerDay) ∧
      ((0 ≤ (Agent.sleep defaultConfig c1wagent).sleep_energy ∧
          (Agent.sleep defaultConfig c1wagent).sleep_energy ≤
            (Agent.sleep defaultConfig c1wagent).max_sleep_energy ∧
          (Agent.sleep defaultConfig c1wagent).calories = c1wagent.calories) ∧
        ((Agent.consumeCollectedCalories defaultConfig c1wagent).sleep_energy =
            c1wagent.sleep_energy ∧
          (Agent.consumeCollectedCalories defaultConfig c1wagent).calories ≤
            (Agent.consumeCollectedCalories defaultConfig
              c1wagent).max_calories ∧
          ((Agent.consumeCollectedCalories defaultConfig c1wagent).alive =
              true →
            0 ≤ (Agent.consumeCollectedCalories defaultConfig
              c1wagent).calories)) ∧
        (∀ (dxy : Int × Int) (w : World),
          (Agent.move defaultConfig dxy c1wagent w).1.sleep_energy =
              c1wagent.sleep_energy ∧
            (Agent.move defaultConfig dxy c1wagent w).1.calories =
              c1wagent.calories) ∧
        (∀ (dxy : Int × Int) (w : World) (is_day : Bool),
          0 ≤ (Agent.update defaultConfig dxy c1wagent w is_day).1.sleep_energy ∧
            (Agent.update defaultConfig dxy c1wagent w is_day).1.sleep_energy ≤
              (Agent.update defaultConfig dxy c1wagent w
                is_day).1.max_sleep_energy ∧
            (Agent.update defaultConfig dxy c1wagent w is_day).1.calories ≤
              (Agent.update defaultConfig dxy c1wagent w
                is_day).1.max_calories ∧
            ((Agent.update defaultConfig dxy c1wagent w is_day).1.alive =
                true →
              0 ≤ (Agent.update defaultConfig dxy c1wagent w
                is_day).1.calories))) :=
  ⟨⟨by decide, by decide, by decide, by decide, by decide, by decide,
      by decide⟩,
    c1_energy_bounds_amended defaultConfig c1wagent (by decide) (by decide)
      (by decide) (by decide) (by decide) (by decide) (by decide)⟩

/-- Witness for the amended C3 at the FULL food cell `(1, 2)` of
`w6`. -/
theorem c3_consume_spec_witness :
    (w6.isValidPosition 1 2 = true ∧ (w6.grid (1, 2)).state = CellState.full) ∧
      ((World.consumeResources defaultConfig w6 1 2).1 =
          ((w6.grid (1, 2)).resources, (w6.grid (1, 2)).resource_type) ∧
        ((World.consumeResources defaultConfig w6 1 2).2.grid (1, 2)).resources
            = 0 ∧
        ((World.consumeResources defaultConfig w6 1 2).2.grid
              (1, 2)).regrowth_time = (w6.grid (1, 2)).regrowth_time ∧
        (defaultConfig.regrowthEnabled = true →
          ((World.consumeResources defaultConfig w6 1 2).2.grid (1, 2)).state =
              CellState.regrowing ∧
            ((World.consumeResources defaultConfig w6 1 2).2.grid
              (1, 2)).regrowth_counter = 0) ∧
        (defaultConfig.regrowthEnabled = false →
          ((World.consumeResources defaultConfig w6 1 2).2.grid (1, 2)).state =
            CellState.consumed) ∧
        (∀ p : Pos, p ≠ (1, 2) →
          (World.consumeResources defaultConfig w6 1 2).2.grid p = w6.grid p)) :=
  ⟨⟨by decide, by decide⟩,
    (c3_consume_spec defaultConfig w6 1 2).2.2.1 (by decide) (by decide)⟩

/-- One pass of the neighbor loop keeps the cluster at or below its
target size and strictly decreases the loop measure (each admitted
cell adds one to both the cluster and the queue while the cluster is
below target, and the caller has already popped one queue entry). -/
theorem spreadNeighbors_measure (cfg : Config) (o : GenOracle)
    (rt : Option RType) (cid target : Nat) :
    ∀ (nbrs : List Pos) (st : GrowSt), st.cells.length < target →
      (spreadNeighbors cfg o rt cid target nbrs st).cells.length ≤ target ∧
        2 * (target -
              (spreadNeighbors cfg o rt cid target nbrs st).cells.length) +
            (spreadNeighbors cfg o rt cid target nbrs st).queue.length <
          2 * (target - st.cells.length) + st.queue.length + 1 := by
  intro nbrs
  induction nbrs with
  | nil =>
      intro st h
      simp only [spreadNeighbors]
      omega
  | cons p rest ih =>
      intro st h
      simp only [spreadNeighbors]
      split
      · exact ih st h
      · split
        · split
          · refine ⟨?_, ?_⟩ <;> simp <;> omega
          · have H := ih
              { grid := World.setCell st.grid p
                  { Cell.init cfg true rt (o.randNat (st.ctr + 1)) with
                    cluster_id := some cid }
                cells := st.cells ++ [p]
                queue := st.queue ++ [p]
                ctr := st.ctr + 1 + 1 } (by simp_all)
            simp only [List.length_append, List.length_cons] at H ⊢
            simp at H ⊢
            omega
        · have H := ih { st with ctr := st.ctr + 1 } h
          simp at H ⊢
          omega

/-- A cell created with resources is FULL. -/
theorem hasRes_newCell (cfg : Config) (rt : Option RType) (cid d : Nat) :
    ({ Cell.init cfg true rt d with cluster_id := some cid } : Cell).hasRes =
      true := by
  simp [Cell.hasRes, Cell.init]

/-- Structure of one neighbor pass: the cluster-cell list only grows;
cells already FULL stay FULL; every newly admitted cell was not
resource-bearing before the pass; and if all recorded cells were FULL
they still are (new ones are created FULL). -/
theorem spreadNeighbors_spec (cfg : Config) (o : GenOracle) (rt : Option RType)
    (cid target : Nat) :
    ∀ (nbrs : List Pos) (st : GrowSt),
      (∃ new, (spreadNeighbors cfg o rt cid target nbrs st).cells =
          st.cells ++ new) ∧
        (∀ q, (st.grid q).hasRes = true →
          ((spreadNeighbors cfg o rt cid target nbrs st).grid q).hasRes =
            true) ∧
        (∀ q, q ∈ (spreadNeighbors cfg o rt cid target nbrs st).cells →
          q ∈ st.cells ∨ (st.grid q).hasRes = false) ∧
        ((∀ q, q ∈ st.cells → (st.grid q).hasRes = true) →
          ∀ q, q ∈ (spreadNeighbors cfg o rt cid target nbrs st).cells →
            ((spreadNeighbors cfg o rt cid target nbrs st).grid q).hasRes =
              true) := by
  intro nbrs
  induction nbrs with
  | nil =>
      intro st
      simp only [spreadNeighbors]
      exact ⟨⟨[], by simp⟩, fun q h => h, fun q h => Or.inl h, fun hful => hful⟩
  | cons p rest ih =>
      intro st
      simp only [spreadNeighbors]
      split
      · exact ih st
      · rename_i hskip
        have hp1 : (st.grid p).hasRes = false := by
          cases hb : (st.grid p).hasRes
          · rfl
          · exact absurd (Or.inl hb) hskip
        have hp2 : p ∉ st.cells := fun hmem => hskip (Or.inr hmem)
        split
        · -- the spread coin succeeded: the new cell is placed
          split
          · -- target reached: stop with st2
            refine ⟨⟨[p], by simp⟩, ?_, ?_, ?_⟩
            · intro q hq
              show (World.setCell st.grid p _ q).hasRes = true
              unfold World.setCell
              split
              · exact hasRes_newCell cfg rt cid _
              · exact hq
            · intro q hq
              simp only [List.mem_append, List.mem_singleton] at hq
              rcases hq with hq | hq
              · exact Or.inl hq
              · subst hq; exact Or.inr hp1
            · intro hful q hq
              simp only [List.mem_append, List.mem_singleton] at hq
              show (World.setCell st.grid p _ q).hasRes = true
              unfold World.setCell
              split
              · exact hasRes_newCell cfg rt cid _
              · rename_i hne
                rcases hq with hq | hq
                · exact hful q hq
                · exact absurd hq hne
          · -- below target: recurse from st2
            obtain ⟨⟨new2, hnew2⟩, hmono2, hnewc2, hful2⟩ := ih
              { grid := World.setCell st.grid p
                  { Cell.init cfg true rt (o.randNat (st.ctr + 1)) with
                    cluster_id := some cid }
                cells := st.cells ++ [p]
                queue := st.queue ++ [p]
                ctr := st.ctr + 1 + 1 }
            refine ⟨⟨[p] ++ new2, by simpa using hnew2⟩, ?_, ?_, ?_⟩
            · intro q hq
              apply hmono2
              show (World.setCell st.grid p _ q).hasRes = true
              unfold World.setCell
              split
              · exact hasRes_newCell cfg rt cid _
              · exact hq
            · intro q hq
              rcases hnewc2 q hq with hq2 | hq2
              · simp only [List.mem_append, List.mem_singleton] at hq2
                rcases hq2 with hq2 | hq2
                · exact Or.inl hq2
                · subst hq2; exact Or.inr hp1
              · right
                cases hb : (st.grid q).hasRes
                · rfl
                · exfalso
                  have h2 : (World.setCell st.grid p
                      { Cell.init cfg true rt (o.randNat (st.ctr + 1)) with
                        cluster_id := some cid } q).hasRes = true := by
                    unfold World.setCell
                    split
                    · exact hasRes_newCell cfg rt cid _
                    · exact hb
                  rw [hq2] at h2
                  exact Bool.false_ne_true h2
            · intro hful q hq
              apply hful2 _ q hq
              intro q2 hq2
              simp only [List.mem_append, List.mem_singleton] at hq2
              show (World.setCell st.grid p _ q2).hasRes = true
              unfold World.setCell
              split
              · exact hasRes_newCell cfg rt cid _
              · rename_i hne
                rcases hq2 with hq2 | hq2
                · exact hful q2 hq2
                · exact absurd hq2 hne
        · -- coin failed: recurse with only the counter advanced
          obtain ⟨⟨new2, hnew2⟩, hmono2, hnewc2, hful2⟩ :=
            ih { st with ctr := st.ctr + 1 }
          exact ⟨⟨new2, hnew2⟩, hmono2, hnewc2, hful2⟩

/-- The growth loop inherits all four structural properties of the
neighbor pass, plus the target-size bound. -/
theorem growLoopFuel_spec (cfg : Config) (o : GenOracle) (width height : Int)
    (rt : Option RType) (cid target : Nat) (is_river : Bool)
    (river_dir perp_dir : Int × Int) :
    ∀ (fuel : Nat) (st : GrowSt),
      (∃ new, (growLoopFuel cfg o width height rt cid target is_river
          river_dir perp_dir fuel st).cells = st.cells ++ new) ∧
        (∀ q, (st.grid q).hasRes = true →
          ((growLoopFuel cfg o width height rt cid target is_river river_dir
              perp_dir fuel st).grid q).hasRes = true) ∧
        (∀ q, q ∈ (growLoopFuel cfg o width height rt cid target is_river
            river_dir perp_dir fuel st).cells →
          q ∈ st.cells ∨ (st.grid q).hasRes = false) ∧
        ((∀ q, q ∈ st.cells → (st.grid q).hasRes = true) →
          ∀ q, q ∈ (growLoopFuel cfg o width height rt cid target is_river
              river_dir perp_dir fuel st).cells →
            ((growLoopFuel cfg o width height rt cid target is_river river_dir
                perp_dir fuel st).grid q).hasRes = true) ∧
        (st.cells.length ≤ target →
          (growLoopFuel cfg o width height rt cid target is_river river_dir
              perp_dir fuel st).cells.length ≤ target) := by
  intro fuel
  induction fuel with
  | zero =>
      intro st
      simp only [growLoopFuel]
      exact ⟨⟨[], by simp⟩, fun q h => h, fun q h => Or.inl h,
        fun hful => hful, fun h => h⟩
  | succ fuel ih =>
      intro st
      simp only [growLoopFuel]
      split
      · exact ⟨⟨[], by simp⟩, fun q h => h, fun q h => Or.inl h,
          fun hful => hful, fun h => h⟩
      · rename_i cx cy rest hqueue
        split
        · rename_i hlt
          obtain ⟨⟨new1, hnew1⟩, hmono1, hnewc1, hful1⟩ :=
            spreadNeighbors_spec cfg o rt cid target
              (if is_river then
                sortByKey (riverPriority river_dir perp_dir cx cy)
                  (getValidNeighbors width height cx cy)
              else getValidNeighbors width height cx cy)
              { st with queue := rest }
          have hlen1 := (spreadNeighbors_measure cfg o rt cid target
            (if is_river then
              sortByKey (riverPriority river_dir perp_dir cx cy)
                (getValidNeighbors width height cx cy)
            else getValidNeighbors width height cx cy)
            { st with queue := rest } hlt).1
          obtain ⟨⟨new2, hnew2⟩, hmono2, hnewc2, hful2, hlen2⟩ := ih
            (spreadNeighbors cfg o rt cid target
              (if is_river then
                sortByKey (riverPriority river_dir perp_dir cx cy)
                  (getValidNeighbors width height cx cy)
              else getValidNeighbors width height cx cy)
              { st with queue := rest })
          refine ⟨⟨new1 ++ new2, ?_⟩, ?_, ?_, ?_, ?_⟩
          · rw [hnew2, hnew1, List.append_assoc]
          · intro q h
            exact hmono2 q (hmono1 q h)
          · intro q h
            rcases hnewc2 q h with h2 | h2
            · rcases hnewc1 q h2 with h3 | h3
              · exact Or.inl h3
              · exact Or.inr h3
            · cases hb : (st.grid q).hasRes
              · exact Or.inr rfl
              · exact Or.inr (by rw [← h2]; exact (hmono1 q hb).symm ▸ rfl)
          · intro hful q h
            exact hful2 (hful1 hful) q h
          · intro hle
            exact hlen2 hlen1
        · exact ⟨⟨[], by simp⟩, fun q h => h, fun q h => Or.inl h,
            fun hful => hful, fun h => h⟩


/-- `_grow_cluster` produces between 1 and `target` cells; it only
turns cells FULL; every produced cell other than the center was not
resource-bearing beforehand (the center is claimed unconditionally);
and every produced cell is FULL afterwards. -/
theorem growCluster_spec (cfg : Config) (o : GenOracle) (width height : Int)
    (cx cy : Int) (target : Nat) (rt : Option RType) (cid : Nat)
    (grid : Pos → Cell) (ctr : Nat) (htgt : 1 ≤ target) :
    1 ≤ (growCluster cfg o width height cx cy target rt cid grid ctr).2.1.length ∧
      (growCluster cfg o width height cx cy target rt cid grid
          ctr).2.1.length ≤ target ∧
      (∀ q, (grid q).hasRes = true →
        ((growCluster cfg o width height cx cy target rt cid grid ctr).1
            q).hasRes = true) ∧
      (∀ p, p ∈ (growCluster cfg o width height cx cy target rt cid grid
          ctr).2.1 → p = (cx, cy) ∨ (grid p).hasRes = false) ∧
      (∀ p, p ∈ (growCluster cfg o width height cx cy target rt cid grid
          ctr).2.1 →
        ((growCluster cfg o width height cx cy target rt cid grid ctr).1
            p).hasRes = true) := by
  simp only [growCluster]
  obtain ⟨⟨new, hnew⟩, hmono, hnewc, hful, hlen⟩ :=
    growLoopFuel_spec cfg o width height rt cid target
      (riverDraw o rt (ctr + 1)).1
      (riverDirectionDraw o (riverDraw o rt (ctr + 1)).1
        (riverDraw o rt (ctr + 1)).2).1
      ((riverDirectionDraw o (riverDraw o rt (ctr + 1)).1
          (riverDraw o rt (ctr + 1)).2).1.2,
       -(riverDirectionDraw o (riverDraw o rt (ctr + 1)).1
          (riverDraw o rt (ctr + 1)).2).1.1)
      (growMeasure target
        { grid := World.setCell grid (cx, cy)
            { Cell.init cfg true rt (o.randNat ctr) with cluster_id := some cid }
          cells := [(cx, cy)]
          queue := [(cx, cy)]
          ctr := (riverDirectionDraw o (riverDraw o rt (ctr + 1)).1
            (riverDraw o rt (ctr + 1)).2).2 })
      { grid := World.setCell grid (cx, cy)
          { Cell.init cfg true rt (o.randNat ctr) with cluster_id := some cid }
        cells := [(cx, cy)]
        queue := [(cx, cy)]
        ctr := (riverDirectionDraw o (riverDraw o rt (ctr + 1)).1
          (riverDraw o rt (ctr + 1)).2).2 }
  refine ⟨?_, ?_, ?_, ?_, ?_⟩
  · rw [hnew]
    simp
  · exact hlen (by simp; omega)
  · intro q h
    apply hmono
    show (World.setCell grid (cx, cy) _ q).hasRes = true
    unfold World.setCell
    split
    · exact hasRes_newCell cfg rt cid _
    · exact h
  · intro p hp
    rcases hnewc p hp with h2 | h2
    · simp only [List.mem_singleton] at h2
      exact Or.inl h2
    · by_cases hpc : p = (cx, cy)
      · exact Or.inl hpc
      · right
        have : (World.setCell grid (cx, cy)
            { Cell.init cfg true rt (o.randNat ctr) with
              cluster_id := some cid } p) = grid p := by
          unfold World.setCell
          rw [if_neg hpc]
        rw [← this]
        exact h2
  · intro p hp
    apply hful _ p hp
    intro q hq
    simp only [List.mem_singleton] at hq
    subst hq
    show (World.setCell grid (cx, cy) _ (cx, cy)).hasRes = true
    unfold World.setCell
    rw [if_pos rfl]
    exact hasRes_newCell cfg rt cid _

/-- The generation loop for one resource type: all recorded clusters
stay resource-bearing, overlaps between clusters happen only at the
later cluster's center, resource-bearing cells are never lost, and
every new cluster has the requested type, between 1 and `smax` cells,
and a correct `size` field. -/
theorem generateClusters_spec (cfg : Config) (o : GenOracle)
    (width height : Int) (rt : Option RType) (smin smax : Nat)
    (hmin : 1 ≤ smin) (hmm : smin ≤ smax) :
    ∀ (count cid : Nat) (grid : Pos → Cell) (clusters : List ClusterInfo)
      (ctr : Nat),
      ClustersFull grid clusters →
      List.Pairwise OverlapAtCenter clusters →
      ClustersFull
          (generateClusters cfg o width height rt smin smax cid count grid
            clusters ctr).1
          (generateClusters cfg o width height rt smin smax cid count grid
            clusters ctr).2.1 ∧
        List.Pairwise OverlapAtCenter
          (generateClusters cfg o width height rt smin smax cid count grid
            clusters ctr).2.1 ∧
        (∀ q, (grid q).hasRes = true →
          ((generateClusters cfg o width height rt smin smax cid count grid
              clusters ctr).1 q).hasRes = true) ∧
        (∃ new,
          (generateClusters cfg o width height rt smin smax cid count grid
              clusters ctr).2.1 = clusters ++ new ∧
            ∀ c ∈ new, c.rtype = rt ∧ 1 ≤ c.cells.length ∧
              c.cells.length ≤ smax ∧ c.size = c.cells.length) := by
  intro count
  induction count with
  | zero =>
      intro cid grid clusters ctr hfull hpw
      simp only [generateClusters]
      exact ⟨hfull, hpw, fun q h => h, ⟨[], by simp, by simp⟩⟩
  | succ count ih =>
      intro cid grid clusters ctr hfull hpw
      simp only [generateClusters]
      have htgt : 1 ≤ randint smin smax (o.randNat (ctr + 1 + 1)) := by
        unfold randint
        omega
      have htmax : randint smin smax (o.randNat (ctr + 1 + 1)) ≤ smax := by
        unfold randint
        have := Nat.mod_lt (o.randNat (ctr + 1 + 1))
          (show 0 < smax - smin + 1 by omega)
        omega
      obtain ⟨glen1, glen2, gmono, gnewc, gfull⟩ :=
        growCluster_spec cfg o width height ((o.randNat ctr : Int) % width)
          ((o.randNat (ctr + 1) : Int) % height)
          (randint smin smax (o.randNat (ctr + 1 + 1))) rt cid grid
          (ctr + 1 + 1 + 1) htgt
      set g := growCluster cfg o width height ((o.randNat ctr : Int) % width)
        ((o.randNat (ctr + 1) : Int) % height)
        (randint smin smax (o.randNat (ctr + 1 + 1))) rt cid grid
        (ctr + 1 + 1 + 1) with hg
      set info : ClusterInfo :=
        { id := cid, rtype := rt,
          center := ((o.randNat ctr : Int) % width,
            (o.randNat (ctr + 1) : Int) % height),
          size := g.2.1.length, cells := g.2.1 } with hinfo
      have hfull' : ClustersFull g.1 (clusters ++ [info]) := by
        intro c hc p hp
        rcases List.mem_append.mp hc with hc | hc
        · exact gmono p (hfull c hc p hp)
        · simp only [List.mem_singleton] at hc
          subst hc
          exact gfull p hp
      have hpw' : List.Pairwise OverlapAtCenter (clusters ++ [info]) := by
        rw [List.pairwise_append]
        refine ⟨hpw, List.pairwise_singleton _ _, ?_⟩
        intro c hc d hd
        simp only [List.mem_singleton] at hd
        subst hd
        intro p hpc hpi
        rcases gnewc p hpi with h2 | h2
        · exact h2
        · exact absurd (hfull c hc p hpc) (by rw [h2]; exact Bool.false_ne_true)
      obtain ⟨ifull, ipw, imono, ⟨new2, hnew2, hprops2⟩⟩ :=
        ih (cid + 1) g.1 (clusters ++ [info]) g.2.2 hfull' hpw'
      refine ⟨ifull, ipw, ?_, ⟨info :: new2, ?_, ?_⟩⟩
      · intro q h
        exact imono q (gmono q h)
      · rw [hnew2, List.append_assoc]
        rfl
      · intro c hc
        rcases List.mem_cons.mp hc with hc | hc
        · subst hc
          exact ⟨rfl, glen1, le_trans glen2 htmax, rfl⟩
        · exact hprops2 c hc

/-- C7 amended: every cluster produced at world construction has
between 1 cell and its type's configured maximum (and a `size` field
equal to its cell count), and for any two distinct clusters every
shared grid cell is the center of the later one — full disjointness
fails only because a cluster's center cell is placed unconditionally
(see `c7_counterexample`). -/
theorem c7_cluster_bounds_amended (cfg : Config) (o : GenOracle)
    (width height : Int)
    (hf1 : 1 ≤ cfg.foodClusterSizeMin)
    (hf2 : cfg.foodClusterSizeMin ≤ cfg.foodClusterSizeMax)
    (hw1 : 1 ≤ cfg.waterClusterSizeMin)
    (hw2 : cfg.waterClusterSizeMin ≤ cfg.waterClusterSizeMax) :
    (∀ c ∈ (World.init cfg o width height).clusters,
        1 ≤ c.cells.length ∧ c.size = c.cells.length ∧
          c.cells.length ≤
            (if c.rtype = some RType.food then cfg.foodClusterSizeMax
              else cfg.waterClusterSizeMax)) ∧
      List.Pairwise OverlapAtCenter (World.init cfg o width height).clusters := by
  simp only [World.init, generateResourceClusters]
  set grid0 : Pos → Cell := fun p => Cell.init cfg false none (o.initTime p)
    with hgrid0
  obtain ⟨ffull, fpw, fmono, ⟨newf, hnf, propsf⟩⟩ :=
    generateClusters_spec cfg o width height (some RType.food)
      cfg.foodClusterSizeMin cfg.foodClusterSizeMax hf1 hf2
      cfg.foodClusterCount 0 grid0 [] 0 (by intro c hc; cases hc)
      List.Pairwise.nil
  set f := generateClusters cfg o width height (some RType.food)
    cfg.foodClusterSizeMin cfg.foodClusterSizeMax 0 cfg.foodClusterCount grid0
    [] 0 with hf
  obtain ⟨wfull, wpw, wmono, ⟨neww, hnw, propsw⟩⟩ :=
    generateClusters_spec cfg o width height (some RType.water)
      cfg.waterClusterSizeMin cfg.waterClusterSizeMax hw1 hw2
      cfg.waterClusterCount cfg.foodClusterCount f.1 f.2.1 f.2.2 ffull fpw
  refine ⟨?_, wpw⟩
  intro c hc
  rw [hnw] at hc
  rcases List.mem_append.mp hc with hc | hc
  · rw [hnf] at hc
    simp only [List.nil_append] at hc
    obtain ⟨hrt, h1, h2, h3⟩ := propsf c hc
    refine ⟨h1, h3, ?_⟩
    rw [hrt]
    simp [h2]
  · obtain ⟨hrt, h1, h2, h3⟩ := propsw c hc
    refine ⟨h1, h3, ?_⟩
    rw [hrt]
    simp [h2]

/-- C7 counterexample: with two food clusters of target size 1 and
both random centers drawn at `(0, 0)`, world construction produces two
distinct clusters (ids 0 and 1) that both claim the grid cell
`(0, 0)` — the center of a cluster is placed without the
`has_resources` guard used for neighbor growth, so "no grid cell
belongs to two different clusters" is false. -/
theorem c7_counterexample :
    (World.init cfg7 o7 2 2).clusters.map ClusterInfo.cells =
        [[(0, 0)], [(0, 0)]] ∧
      (World.init cfg7 o7 2 2).clusters.map ClusterInfo.id = [0, 1] ∧
      ¬List.Pairwise
        (fun c d : ClusterInfo => ∀ p ∈ c.cells, p ∈ d.cells → False)
        (World.init cfg7 o7 2 2).clusters := by
  decide

/-- Witness for the amended C7 at the concrete `config.py` values. -/
theorem c7_cluster_bounds_amended_witness :
    (1 ≤ defaultConfig.foodClusterSizeMin ∧
        defaultConfig.foodClusterSizeMin ≤ defaultConfig.foodClusterSizeMax ∧
        1 ≤ defaultConfig.waterClusterSizeMin ∧
        defaultConfig.waterClusterSizeMin ≤
          defaultConfig.waterClusterSizeMax) ∧
      ((∀ c ∈ (World.init defaultConfig o7 50 50).clusters,
          1 ≤ c.cells.length ∧ c.size = c.cells.length ∧
            c.cells.length ≤
              (if c.rtype = some RType.food then
                defaultConfig.foodClusterSizeMax
              else defaultConfig.waterClusterSizeMax)) ∧
        List.Pairwise OverlapAtCenter
          (World.init defaultConfig o7 50 50).clusters) :=
  ⟨⟨by decide, by decide, by decide, by decide⟩,
    c7_cluster_bounds_amended defaultConfig o7 50 50 (by decide) (by decide)
      (by decide) (by decide)⟩
